import Mathlib

/-!
Verification development for the eliza-starter process supervisor
(`src/index.ts`). The definitions below are a shallow embedding of the
supervisor's state and operations: module-level mutable handles become an
explicit state record, synchronous JS functions become Lean functions on
that record, thrown exceptions become `Except`, and calls into external
libraries whose success is not determined by this repository are
parameterised by explicit behaviour flags.
-/

namespace ElizaStarter

/-- The module-level mutable state of `src/index.ts`: the nullable handles
`rl`, `db`, `dbAdapter`, `cache`, `directClient` (modelled as `Bool`,
`true` = non-null), the `isShuttingDown` flag, and instrumentation counters
recording how often each handle was closed / dropped, how often the
advisory GC hint ran, what was logged and what was printed. -/
structure SupState where
  rl : Bool
  db : Bool
  dbAdapter : Bool
  cache : Bool
  directClient : Bool
  isShuttingDown : Bool
  rlCloseCount : Nat
  dbCloseCount : Nat
  dbAdapterDropCount : Nat
  cacheDropCount : Nat
  directClientDropCount : Nat
  gcHints : Nat
  moduleCacheCleared : Bool
  intervalsCleared : Bool
  timeoutsCleared : Bool
  errorsLogged : Nat
  warningsLogged : Nat
  printed : List String
  deriving DecidableEq, Repr

/-- Behaviour of the external close operations: whether `rl.close()` or
`db.close()` throws when invoked. These calls go into the readline and
better-sqlite3 libraries, so their success is a parameter of the model. -/
structure CloseBehavior where
  rlCloseThrows : Bool
  dbCloseThrows : Bool
  deriving DecidableEq, Repr

/-- Behaviour in which no external close operation throws. -/
def noThrowBeh : CloseBehavior := { rlCloseThrows := false, dbCloseThrows := false }

/-- Step `if (rl) { rl.close(); rl = null; }` of `cleanup`. If the close
throws, the assignment `rl = null` does not execute. -/
def closeRl (beh : CloseBehavior) (s : SupState) : Except SupState SupState :=
  if s.rl then
    if beh.rlCloseThrows then Except.error s
    else Except.ok { s with rl := false, rlCloseCount := s.rlCloseCount + 1 }
  else Except.ok s

/-- Step `if (db) { db.close(); db = null; }` of `cleanup`. -/
def closeDb (beh : CloseBehavior) (s : SupState) : Except SupState SupState :=
  if s.db then
    if beh.dbCloseThrows then Except.error s
    else Except.ok { s with db := false, dbCloseCount := s.dbCloseCount + 1 }
  else Except.ok s

/-- Step `if (dbAdapter) { dbAdapter = null; }` of `cleanup`. -/
def dropDbAdapter (s : SupState) : SupState :=
  if s.dbAdapter then { s with dbAdapter := false, dbAdapterDropCount := s.dbAdapterDropCount + 1 }
  else s

/-- Step `if (cache) { cache = null; }` of `cleanup`. -/
def dropCache (s : SupState) : SupState :=
  if s.cache then { s with cache := false, cacheDropCount := s.cacheDropCount + 1 }
  else s

/-- Step `if (directClient) { directClient = null; }` of `cleanup`. -/
def dropDirectClient (s : SupState) : SupState :=
  if s.directClient then
    { s with directClient := false, directClientDropCount := s.directClientDropCount + 1 }
  else s

/-- The advisory garbage-collection hint `global.gc?.()`. -/
def gcHintStep (s : SupState) : SupState := { s with gcHints := s.gcHints + 1 }

/-- Clearing of `require.cache` in `cleanup`. -/
def clearModuleCache (s : SupState) : SupState := { s with moduleCacheCleared := true }

/-- Clearing of registered interval timers in `cleanup`. -/
def clearIntervals (s : SupState) : SupState := { s with intervalsCleared := true }

/-- Clearing of registered timeout timers in `cleanup`. -/
def clearTimeouts (s : SupState) : SupState := { s with timeoutsCleared := true }

/-- The single `try { ... }` block of `cleanup` in `src/index.ts`: close the
console input handle, close the storage handle, drop the adapter, cache and
direct-client references, run the GC hint, clear the module cache and the
interval and timeout timers. A thrown exception aborts the rest of the
block. -/
def cleanupTry (beh : CloseBehavior) (s : SupState) : Except SupState SupState :=
  match closeRl beh s with
  | Except.error e => Except.error e
  | Except.ok s1 =>
    match closeDb beh s1 with
    | Except.error e => Except.error e
    | Except.ok s2 =>
      Except.ok (clearTimeouts (clearIntervals (clearModuleCache (gcHintStep
        (dropDirectClient (dropCache (dropDbAdapter s2)))))))

/-- The `cleanup` function of `src/index.ts`: set `isShuttingDown`, run the
guarded teardown block, and on a thrown exception log the error
(`elizaLogger.error`) instead of propagating it. -/
def cleanup (beh : CloseBehavior) (s : SupState) : SupState :=
  let s0 := { s with isShuttingDown := true }
  match cleanupTry beh s0 with
  | Except.ok s1 => s1
  | Except.error s1 => { s1 with errorsLogged := s1.errorsLogged + 1 }

/-- Sequential composition of `n` invocations of `cleanup`. -/
def iterateCleanup (beh : CloseBehavior) : Nat → SupState → SupState
  | 0, s => s
  | n + 1, s => iterateCleanup beh n (cleanup beh s)

/-- The constant MEMORY_THRESHOLD = 350 * 1024 * 1024 of `src/index.ts`. -/
def MEMORY_THRESHOLD : Nat := 350 * 1024 * 1024

/-- The constant CRITICAL_MEMORY_THRESHOLD = 375 * 1024 * 1024 of
`src/index.ts`. -/
def CRITICAL_MEMORY_THRESHOLD : Nat := 375 * 1024 * 1024

/-- The `checkMemoryUsage` function of `src/index.ts` applied to a sampled
heap-used byte count. Returns the new state together with the exit status
when the function terminates the process. Above the critical threshold it
logs an error, invokes `cleanup` and exits with status 1; above the warning
threshold it logs a warning and runs the GC hint; otherwise it does
nothing. -/
def checkMemoryUsage (beh : CloseBehavior) (s : SupState) (heapUsed : Nat) :
    SupState × Option Nat :=
  if heapUsed > CRITICAL_MEMORY_THRESHOLD then
    (cleanup beh { s with errorsLogged := s.errorsLogged + 1 }, some 1)
  else if heapUsed > MEMORY_THRESHOLD then
    ({ s with warningsLogged := s.warningsLogged + 1, gcHints := s.gcHints + 1 }, none)
  else (s, none)

/-- An HTTP response as observed by `handleUserInput`: its success flag
(`response.ok`), its status code, and the texts of the JSON array of
message objects in its body. -/
structure HttpResponse where
  ok : Bool
  status : Nat
  body : List String
  deriving DecidableEq, Repr

/-- The `handleUserInput` function of `src/index.ts`, given the response
the fetch produced: on a non-ok response it raises
an HTTP error (after logging, the error is re-thrown to the caller); on a
success it returns the lines printed, one per response message, each
prefixed with the agent identifier. -/
def handleUserInput (resp : HttpResponse) (agentId : String) :
    Except String (List String) :=
  if resp.ok = false then
    Except.error ("HTTP error! status: " ++ toString resp.status)
  else
    Except.ok (resp.body.map (fun t => agentId ++ ": " ++ t))

/-- Outcome of one round of the console loop: the process exited with the
given status, the loop re-armed itself with `setTimeout(chat, 100)`, or the
loop stopped without re-arming. -/
inductive ChatOutcome where
  | exited (code : Nat)
  | rearmed
  | stopped
  deriving DecidableEq, Repr

/-- JavaScript `String.prototype.toLowerCase` on the ASCII range:
lower-case every character. -/
def jsToLower (s : String) : String := String.mk (s.data.map Char.toLower)

/-- JavaScript `String.prototype.trim`: strip leading and trailing
whitespace. The source never calls it; it appears only so that the spec's
notion of a trimmed input can be stated. -/
def jsTrim (s : String) : String :=
  String.mk (((s.data.dropWhile Char.isWhitespace).reverse.dropWhile
    Char.isWhitespace).reverse)

/-- The guard `if (isShuttingDown) return;` at the top of `chat()`:
whether the loop issues another prompt. -/
def chatEntry (s : SupState) : Bool := !s.isShuttingDown

/-- The body of the `rl.question` callback inside `chat()` in
`src/index.ts`, given the heap sample the inner memory check will observe
and the HTTP response the round-trip will produce. If the lowercased input
equals "exit" (no trimming), run `cleanup` and exit with status 0.
Otherwise run `checkMemoryUsage` (which may exit the process), then
`handleUserInput`: on success print the response lines and run the GC
hint, on a thrown error log it (once inside `handleUserInput`, once in the
catch of the callback); in either case re-arm via `setTimeout(chat, 100)`
unless `isShuttingDown` is set. -/
def chatCallback (beh : CloseBehavior) (s : SupState) (heapUsed : Nat)
    (resp : HttpResponse) (agentId : String) (input : String) :
    SupState × ChatOutcome :=
  if jsToLower input = "exit" then
    (cleanup beh s, ChatOutcome.exited 0)
  else
    match checkMemoryUsage beh s heapUsed with
    | (s1, some code) => (s1, ChatOutcome.exited code)
    | (s1, none) =>
      match handleUserInput resp agentId with
      | Except.ok lines =>
        let s2 := { s1 with printed := s1.printed ++ lines, gcHints := s1.gcHints + 1 }
        if s2.isShuttingDown then (s2, ChatOutcome.stopped) else (s2, ChatOutcome.rearmed)
      | Except.error _ =>
        let s2 := { s1 with errorsLogged := s1.errorsLogged + 2 }
        if s2.isShuttingDown then (s2, ChatOutcome.stopped) else (s2, ChatOutcome.rearmed)

/-- The model-provider selector. The first eight constructors are the cases
handled by the `switch` in `getTokenForProvider`; `OLLAMA`, `GOOGLE` and
`LLAMALOCAL` are representative further values of the external
`ModelProviderName` enum of the agent framework, which the switch does not
handle. -/
inductive ModelProviderName where
  | OPENAI
  | LLAMACLOUD
  | ANTHROPIC
  | REDPILL
  | OPENROUTER
  | GROK
  | HEURIST
  | GROQ
  | OLLAMA
  | GOOGLE
  | LLAMALOCAL
  deriving DecidableEq, Repr

/-- Whether a provider is one of the eight cases of the `switch` in
`getTokenForProvider`. -/
def handledProvider : ModelProviderName → Bool
  | ModelProviderName.OPENAI => true
  | ModelProviderName.LLAMACLOUD => true
  | ModelProviderName.ANTHROPIC => true
  | ModelProviderName.REDPILL => true
  | ModelProviderName.OPENROUTER => true
  | ModelProviderName.GROK => true
  | ModelProviderName.HEURIST => true
  | ModelProviderName.GROQ => true
  | _ => false

/-- A character's secret bag: the key names that `getTokenForProvider`
consults in `character.settings.secrets`. `none` models an absent key. -/
structure Secrets where
  OPENAI_API_KEY : Option String
  LLAMACLOUD_API_KEY : Option String
  TOGETHER_API_KEY : Option String
  XAI_API_KEY : Option String
  ANTHROPIC_API_KEY : Option String
  CLAUDE_API_KEY : Option String
  REDPILL_API_KEY : Option String
  OPENROUTER : Option String
  GROK_API_KEY : Option String
  HEURIST_API_KEY : Option String
  GROQ_API_KEY : Option String
  deriving DecidableEq, Repr

/-- A secret bag with every key absent. -/
def noSecrets : Secrets :=
  { OPENAI_API_KEY := none, LLAMACLOUD_API_KEY := none, TOGETHER_API_KEY := none,
    XAI_API_KEY := none, ANTHROPIC_API_KEY := none, CLAUDE_API_KEY := none,
    REDPILL_API_KEY := none, OPENROUTER := none, GROK_API_KEY := none,
    HEURIST_API_KEY := none, GROQ_API_KEY := none }

/-- The `settings` bag of a character (`character.settings`), itself
optional in the `Character` type, holding the optional secret bag. -/
structure CharSettings where
  secrets : Option Secrets
  deriving DecidableEq, Repr

/-- A character configuration, restricted to the fields `src/index.ts`
reads: name, optional id and username, declared model provider, declared
client names, and the optional settings bag. -/
structure Character where
  name : String
  id : Option String
  username : Option String
  modelProvider : ModelProviderName
  clients : List String
  settings : Option CharSettings
  deriving DecidableEq, Repr

/-- The process-wide `settings` object of the agent framework, restricted
to the key names `getTokenForProvider` reads. -/
structure ProcessSettings where
  OPENAI_API_KEY : Option String
  LLAMACLOUD_API_KEY : Option String
  TOGETHER_API_KEY : Option String
  XAI_API_KEY : Option String
  ANTHROPIC_API_KEY : Option String
  CLAUDE_API_KEY : Option String
  REDPILL_API_KEY : Option String
  OPENROUTER_API_KEY : Option String
  GROK_API_KEY : Option String
  HEURIST_API_KEY : Option String
  GROQ_API_KEY : Option String
  deriving DecidableEq, Repr

/-- Process settings with every key absent. -/
def noSettings : ProcessSettings :=
  { OPENAI_API_KEY := none, LLAMACLOUD_API_KEY := none, TOGETHER_API_KEY := none,
    XAI_API_KEY := none, ANTHROPIC_API_KEY := none, CLAUDE_API_KEY := none,
    REDPILL_API_KEY := none, OPENROUTER_API_KEY := none, GROK_API_KEY := none,
    HEURIST_API_KEY := none, GROQ_API_KEY := none }

/-- JavaScript `a || b` on `string | undefined` values: `b` is taken when
`a` is `undefined` or the (falsy) empty string. -/
def jsOr (a b : Option String) : Option String :=
  match a with
  | some s => if s = "" then b else some s
  | none => b

/-- Lookup `character.settings?.secrets?.X` with its two optional-chaining
steps. -/
def charSecret (c : Character) (f : Secrets → Option String) : Option String :=
  match c.settings with
  | none => none
  | some st =>
    match st.secrets with
    | none => none
    | some sec => f sec

/-- The `getTokenForProvider` function of `src/index.ts`: the per-provider
fallback chain of `||`-joined lookups, in source order. A provider not
among the eight `case`s falls off the `switch` and yields `undefined`. -/
def getTokenForProvider (provider : ModelProviderName) (character : Character)
    (settings : ProcessSettings) : Option String :=
  match provider with
  | ModelProviderName.OPENAI =>
    jsOr (charSecret character (fun s => s.OPENAI_API_KEY)) settings.OPENAI_API_KEY
  | ModelProviderName.LLAMACLOUD =>
    jsOr (charSecret character (fun s => s.LLAMACLOUD_API_KEY))
      (jsOr settings.LLAMACLOUD_API_KEY
        (jsOr (charSecret character (fun s => s.TOGETHER_API_KEY))
          (jsOr settings.TOGETHER_API_KEY
            (jsOr (charSecret character (fun s => s.XAI_API_KEY))
              (jsOr settings.XAI_API_KEY
                (jsOr (charSecret character (fun s => s.OPENAI_API_KEY))
                  settings.OPENAI_API_KEY))))))
  | ModelProviderName.ANTHROPIC =>
    jsOr (charSecret character (fun s => s.ANTHROPIC_API_KEY))
      (jsOr (charSecret character (fun s => s.CLAUDE_API_KEY))
        (jsOr settings.ANTHROPIC_API_KEY settings.CLAUDE_API_KEY))
  | ModelProviderName.REDPILL =>
    jsOr (charSecret character (fun s => s.REDPILL_API_KEY)) settings.REDPILL_API_KEY
  | ModelProviderName.OPENROUTER =>
    jsOr (charSecret character (fun s => s.OPENROUTER)) settings.OPENROUTER_API_KEY
  | ModelProviderName.GROK =>
    jsOr (charSecret character (fun s => s.GROK_API_KEY)) settings.GROK_API_KEY
  | ModelProviderName.HEURIST =>
    jsOr (charSecret character (fun s => s.HEURIST_API_KEY)) settings.HEURIST_API_KEY
  | ModelProviderName.GROQ =>
    jsOr (charSecret character (fun s => s.GROQ_API_KEY)) settings.GROQ_API_KEY
  | _ => none

/-- First-match-wins evaluation of a declared chain of lookups, matching
the semantics of a flat JavaScript chain of binary truthy-or. -/
def resolveChain : List (Option String) → Option String
  | [] => none
  | [a] => a
  | a :: rest => jsOr a (resolveChain rest)

/-- The declarative per-provider fallback table: for each provider, the
ordered list of (source, key) lookups its chain consults, written down
from the chains in `getTokenForProvider`. -/
def tokenChain (provider : ModelProviderName) (c : Character)
    (st : ProcessSettings) : List (Option String) :=
  match provider with
  | ModelProviderName.OPENAI =>
    [charSecret c (fun s => s.OPENAI_API_KEY), st.OPENAI_API_KEY]
  | ModelProviderName.LLAMACLOUD =>
    [charSecret c (fun s => s.LLAMACLOUD_API_KEY), st.LLAMACLOUD_API_KEY,
     charSecret c (fun s => s.TOGETHER_API_KEY), st.TOGETHER_API_KEY,
     charSecret c (fun s => s.XAI_API_KEY), st.XAI_API_KEY,
     charSecret c (fun s => s.OPENAI_API_KEY), st.OPENAI_API_KEY]
  | ModelProviderName.ANTHROPIC =>
    [charSecret c (fun s => s.ANTHROPIC_API_KEY), charSecret c (fun s => s.CLAUDE_API_KEY),
     st.ANTHROPIC_API_KEY, st.CLAUDE_API_KEY]
  | ModelProviderName.REDPILL =>
    [charSecret c (fun s => s.REDPILL_API_KEY), st.REDPILL_API_KEY]
  | ModelProviderName.OPENROUTER =>
    [charSecret c (fun s => s.OPENROUTER), st.OPENROUTER_API_KEY]
  | ModelProviderName.GROK =>
    [charSecret c (fun s => s.GROK_API_KEY), st.GROK_API_KEY]
  | ModelProviderName.HEURIST =>
    [charSecret c (fun s => s.HEURIST_API_KEY), st.HEURIST_API_KEY]
  | ModelProviderName.GROQ =>
    [charSecret c (fun s => s.GROQ_API_KEY), st.GROQ_API_KEY]
  | _ => []

/-- Modelled from the spec: `stringToUuid` lives in the external agent
framework, not in this repository; the spec only requires a stable id
"derived deterministically from name", which any deterministic function
satisfies. -/
def stringToUuid (s : String) : String := "uuid-of-" ++ s

/-- The defaults-resolution step of `startAgent`:
`character.id ??= stringToUuid(character.name)` and
`character.username ??= character.name`. -/
def resolveDefaults (c : Character) : Character :=
  let c1 :=
    match c.id with
    | none => { c with id := some (stringToUuid c.name) }
    | some _ => c
  match c1.username with
  | none => { c1 with username := some c1.name }
  | some _ => c1

/-- Which of the awaited external operations inside `startAgent` throw:
`db.init()`, `runtime.initialize()`, `initializeClients(...)` and
`client.registerAgent(...)` all call into external libraries, so their
success is a parameter of the model. -/
structure StepFailures where
  dbInitFails : Bool
  initializeFails : Bool
  clientsFail : Bool
  registerFails : Bool
  deriving DecidableEq, Repr

/-- Failure behaviour in which every external bring-up operation
succeeds. -/
def noFailures : StepFailures :=
  { dbInitFails := false, initializeFails := false, clientsFail := false,
    registerFails := false }

/-- The configuration the `AgentRuntime` constructor receives from
`createAgent`, restricted to the fields determined by this repository:
the resolved token, the character's model provider, and the character's
name. -/
structure RuntimeConfig where
  token : Option String
  modelProvider : ModelProviderName
  characterName : String
  deriving DecidableEq, Repr

/-- The `createAgent` function of `src/index.ts`: constructs the runtime
configuration from the character and the resolved token, passing the token
through unchecked (an `undefined` token is handed to the constructor
as-is). -/
def createAgent (character : Character) (token : Option String) : RuntimeConfig :=
  { token := token, modelProvider := character.modelProvider,
    characterName := character.name }

/-- The message `startAgent` logs (with `elizaLogger.error`) before
re-throwing an error raised during bring-up of a character. -/
def startAgentErrorLog (name : String) : String :=
  "Error starting agent for character " ++ name

/-- The `startAgent` function of `src/index.ts`: resolve defaults, resolve
the provider token, open storage and cache, construct the runtime and
initialise it, then attempt `initializeClients` inside its own
`try`/`catch` (a failure there is logged as a warning and bring-up
continues), and finally register the runtime with the Direct Client. Any
other exception is caught by the outer `catch`, logged together with the
character's name, and re-thrown (`Except.error`). On success, returns the
constructed runtime configuration and whether the client-start warning was
logged. -/
def startAgentRun (st : ProcessSettings) (c0 : Character) (f : StepFailures) :
    Except String (RuntimeConfig × Bool) :=
  let c := resolveDefaults c0
  let token := getTokenForProvider c.modelProvider c st
  if f.dbInitFails then Except.error (startAgentErrorLog c.name)
  else
    let runtime := createAgent c token
    if f.initializeFails then Except.error (startAgentErrorLog c.name)
    else
      let warned := f.clientsFail
      if f.registerFails then Except.error (startAgentErrorLog c.name)
      else Except.ok (runtime, warned)

/-- What the `catch` of `startAgents` (and the final
`startAgents().catch`) does with the result of a bring-up: on a re-thrown
error it logs it, runs `cleanup` and exits the process with status 1; on
success the sequence continues (no exit). -/
def startAgentsOnResult (beh : CloseBehavior) (s : SupState)
    (r : Except String (RuntimeConfig × Bool)) : SupState × Option Nat :=
  match r with
  | Except.ok _ => (s, none)
  | Except.error _ => (cleanup beh { s with errorsLogged := s.errorsLogged + 1 }, some 1)

/-- An event of the agent bring-up sequence, tagged with the zero-based
position `k` of the character in the configured list. The events of one
iteration of the `for` loop in `startAgents`, in source order: the
pre-flight memory check, then the awaited steps inside `startAgent`
(defaults, token, storage open, cache open, runtime construction, runtime
initialisation, client start, registration, GC hint), then the fixed
2000ms inter-instance delay and the GC hint after it. -/
inductive BringUpEvent where
  | memCheck (k : Nat)
  | defaultsResolved (k : Nat)
  | tokenResolved (k : Nat)
  | dbOpened (k : Nat)
  | cacheOpened (k : Nat)
  | constructStart (k : Nat)
  | agentInitialized (k : Nat)
  | clientsStarted (k : Nat)
  | registered (k : Nat)
  | gcHinted (k : Nat)
  | delayed (k : Nat) (ms : Nat)
  | gcAfterDelay (k : Nat)
  deriving DecidableEq, Repr

/-- The character index an event belongs to. -/
def eventOwner : BringUpEvent → Nat
  | BringUpEvent.memCheck k => k
  | BringUpEvent.defaultsResolved k => k
  | BringUpEvent.tokenResolved k => k
  | BringUpEvent.dbOpened k => k
  | BringUpEvent.cacheOpened k => k
  | BringUpEvent.constructStart k => k
  | BringUpEvent.agentInitialized k => k
  | BringUpEvent.clientsStarted k => k
  | BringUpEvent.registered k => k
  | BringUpEvent.gcHinted k => k
  | BringUpEvent.delayed k _ => k
  | BringUpEvent.gcAfterDelay k => k

/-- The events of the `k`-th iteration of the bring-up loop, in the order
the `await`s of `startAgents` and `startAgent` execute them. -/
def agentBlock (k : Nat) : List BringUpEvent :=
  [BringUpEvent.memCheck k, BringUpEvent.defaultsResolved k,
   BringUpEvent.tokenResolved k, BringUpEvent.dbOpened k,
   BringUpEvent.cacheOpened k, BringUpEvent.constructStart k,
   BringUpEvent.agentInitialized k, BringUpEvent.clientsStarted k,
   BringUpEvent.registered k, BringUpEvent.gcHinted k,
   BringUpEvent.delayed k 2000, BringUpEvent.gcAfterDelay k]

/-- The event trace of the sequential `for` loop of `startAgents` over a
list of `n` configured characters: each iteration's events are appended in
full before the next iteration begins, because every step is awaited. -/
def bringUpTrace : Nat → List BringUpEvent
  | 0 => []
  | n + 1 => bringUpTrace n ++ agentBlock n

/-! Helper lemmas: normal forms of `cleanup` in its three scenarios. -/

/-- Normal form of `cleanup` when neither close throws on a handle that is
present: every handle ends null, each present handle's close / drop counter
is incremented once, the GC hint runs, the module cache and both timer
kinds are cleared, and the flag is set. -/
theorem cleanup_ok_eq (beh : CloseBehavior) (s : SupState)
    (h1 : beh.rlCloseThrows = false ∨ s.rl = false)
    (h2 : beh.dbCloseThrows = false ∨ s.db = false) :
    cleanup beh s =
      { s with
        rl := false, db := false, dbAdapter := false, cache := false,
        directClient := false, isShuttingDown := true,
        rlCloseCount := s.rlCloseCount + (if s.rl then 1 else 0),
        dbCloseCount := s.dbCloseCount + (if s.db then 1 else 0),
        dbAdapterDropCount := s.dbAdapterDropCount + (if s.dbAdapter then 1 else 0),
        cacheDropCount := s.cacheDropCount + (if s.cache then 1 else 0),
        directClientDropCount := s.directClientDropCount + (if s.directClient then 1 else 0),
        gcHints := s.gcHints + 1, moduleCacheCleared := true,
        intervalsCleared := true, timeoutsCleared := true } := by
  rcases s with ⟨rl, db, dba, ca, dc, sh, c1, c2, c3, c4, c5, gh, mc, ic, tc, el, wl, pr⟩
  rcases beh with ⟨b1, b2⟩
  simp only at h1 h2
  cases rl <;> cases db <;> cases dba <;> cases ca <;> cases dc <;>
    simp_all [cleanup, cleanupTry, closeRl, closeDb, dropDbAdapter, dropCache,
      dropDirectClient, gcHintStep, clearModuleCache, clearIntervals, clearTimeouts]

/-- Normal form of `cleanup` when closing the console input handle throws:
the error is logged and nothing else changes (besides the flag, set before
the guarded block). -/
theorem cleanup_rlThrow_eq (beh : CloseBehavior) (s : SupState)
    (h1 : s.rl = true) (h2 : beh.rlCloseThrows = true) :
    cleanup beh s =
      { s with isShuttingDown := true, errorsLogged := s.errorsLogged + 1 } := by
  rcases s with ⟨rl, db, dba, ca, dc, sh, c1, c2, c3, c4, c5, gh, mc, ic, tc, el, wl, pr⟩
  rcases beh with ⟨b1, b2⟩
  simp only at h1 h2
  subst h1 h2
  simp [cleanup, cleanupTry, closeRl]

/-- Normal form of `cleanup` when closing the storage handle throws (and
the console close did not): the console handle is nulled, then the error
is logged and every later step is skipped. -/
theorem cleanup_dbThrow_eq (beh : CloseBehavior) (s : SupState)
    (h1 : beh.rlCloseThrows = false ∨ s.rl = false)
    (h2 : s.db = true) (h3 : beh.dbCloseThrows = true) :
    cleanup beh s =
      { s with
        isShuttingDown := true, rl := false,
        rlCloseCount := s.rlCloseCount + (if s.rl then 1 else 0),
        errorsLogged := s.errorsLogged + 1 } := by
  rcases s with ⟨rl, db, dba, ca, dc, sh, c1, c2, c3, c4, c5, gh, mc, ic, tc, el, wl, pr⟩
  rcases beh with ⟨b1, b2⟩
  simp only at h1 h2 h3
  subst h2 h3
  cases rl <;> simp_all [cleanup, cleanupTry, closeRl, closeDb]

/-- Every invocation of `cleanup` leaves the shutdown flag set. -/
theorem cleanup_shuts (beh : CloseBehavior) (s : SupState) :
    (cleanup beh s).isShuttingDown = true := by
  rcases s with ⟨rl, db, dba, ca, dc, sh, c1, c2, c3, c4, c5, gh, mc, ic, tc, el, wl, pr⟩
  rcases beh with ⟨b1, b2⟩
  cases rl <;> cases db <;> cases dba <;> cases ca <;> cases dc <;>
    cases b1 <;> cases b2 <;>
    simp [cleanup, cleanupTry, closeRl, closeDb, dropDbAdapter, dropCache,
      dropDirectClient, gcHintStep, clearModuleCache, clearIntervals, clearTimeouts]

/-- Length of the bring-up trace: twelve events per character. -/
theorem bringUpTrace_length (n : Nat) : (bringUpTrace n).length = 12 * n := by
  induction n with
  | zero => rfl
  | succ n ih => simp [bringUpTrace, agentBlock, ih]; omega

/-- Every event of the `k`-th block belongs to character `k`. -/
theorem mem_agentBlock_owner (k : Nat) (e : BringUpEvent) (h : e ∈ agentBlock k) :
    eventOwner e = k := by
  simp [agentBlock] at h
  rcases h with rfl | rfl | rfl | rfl | rfl | rfl | rfl | rfl | rfl | rfl | rfl | rfl <;> rfl

/-- The event at position `12 * k + j` of the trace is the `j`-th event of
the `k`-th block. -/
theorem bringUpTrace_getElem (n k j : Nat) (hk : k < n) (hj : j < 12) :
    (bringUpTrace n)[12 * k + j]? = (agentBlock k)[j]? := by
  induction n with
  | zero => omega
  | succ n ih =>
    rcases Nat.lt_succ_iff_lt_or_eq.mp hk with h | h
    · rw [bringUpTrace, List.getElem?_append_left (by rw [bringUpTrace_length]; omega)]
      exact ih h
    · subst h
      rw [bringUpTrace, List.getElem?_append_right (by rw [bringUpTrace_length]; omega)]
      rw [bringUpTrace_length]
      congr 1
      omega

/-- The owner of the event stored at position `i` of the trace is `i / 12`:
the trace is partitioned into per-character segments in list order. -/
theorem bringUpTrace_owner (n i : Nat) (e : BringUpEvent)
    (h : (bringUpTrace n)[i]? = some e) : eventOwner e = i / 12 := by
  induction n with
  | zero => simp [bringUpTrace] at h
  | succ n ih =>
    rw [bringUpTrace] at h
    by_cases hi : i < (bringUpTrace n).length
    · rw [List.getElem?_append_left hi] at h
      exact ih h
    · push_neg at hi
      have hup : i - (bringUpTrace n).length < (agentBlock n).length := by
        by_contra hc
        push_neg at hc
        rw [List.getElem?_append_right hi, List.getElem?_eq_none hc] at h
        cases h
      rw [List.getElem?_append_right hi] at h
      have hmem := List.getElem?_mem h
      have hown := mem_agentBlock_owner n e hmem
      rw [bringUpTrace_length] at hi
      have hblk : (agentBlock n).length = 12 := by rfl
      rw [bringUpTrace_length, hblk] at hup
      omega

/-- A fully open supervisor state: every handle present, the shutdown flag
clear, all counters zero. -/
def sOpen : SupState :=
  { rl := true, db := true, dbAdapter := true, cache := true, directClient := true,
    isShuttingDown := false, rlCloseCount := 0, dbCloseCount := 0,
    dbAdapterDropCount := 0, cacheDropCount := 0, directClientDropCount := 0,
    gcHints := 0, moduleCacheCleared := false, intervalsCleared := false,
    timeoutsCleared := false, errorsLogged := 0, warningsLogged := 0, printed := [] }

/-- A state after a successful teardown: every handle null. -/
def sClosed : SupState :=
  { rl := false, db := false, dbAdapter := false, cache := false, directClient := false,
    isShuttingDown := true, rlCloseCount := 1, dbCloseCount := 1,
    dbAdapterDropCount := 1, cacheDropCount := 1, directClientDropCount := 1,
    gcHints := 1, moduleCacheCleared := true, intervalsCleared := true,
    timeoutsCleared := true, errorsLogged := 0, warningsLogged := 0, printed := [] }

/-- Behaviour in which closing the console input handle throws. -/
def rlThrowBeh : CloseBehavior := { rlCloseThrows := true, dbCloseThrows := false }

/-- Behaviour in which closing the storage handle throws. -/
def dbThrowBeh : CloseBehavior := { rlCloseThrows := false, dbCloseThrows := true }

/-- A successful HTTP response carrying one message. -/
def respOk : HttpResponse := { ok := true, status := 200, body := ["Namaste!"] }

/-- A failed HTTP response with status 500. -/
def resp500 : HttpResponse := { ok := false, status := 500, body := [] }

/-- Unfolding lemma for one step of the cleanup iteration. -/
theorem iterateCleanup_succ (beh : CloseBehavior) (n : Nat) (s : SupState) :
    iterateCleanup beh (n + 1) s = iterateCleanup beh n (cleanup beh s) := rfl

/-- After at least one invocation of `cleanup` (no close throwing), all
four claim handles are null and each was closed or dropped exactly once if
it was present, no matter how many further invocations follow. -/
theorem iterateCleanup_noThrow_spec (n : Nat) (hn : 1 ≤ n) (s : SupState) :
    (iterateCleanup noThrowBeh n s).rl = false ∧
    (iterateCleanup noThrowBeh n s).db = false ∧
    (iterateCleanup noThrowBeh n s).cache = false ∧
    (iterateCleanup noThrowBeh n s).directClient = false ∧
    (iterateCleanup noThrowBeh n s).rlCloseCount =
      s.rlCloseCount + (if s.rl then 1 else 0) ∧
    (iterateCleanup noThrowBeh n s).dbCloseCount =
      s.dbCloseCount + (if s.db then 1 else 0) ∧
    (iterateCleanup noThrowBeh n s).cacheDropCount =
      s.cacheDropCount + (if s.cache then 1 else 0) ∧
    (iterateCleanup noThrowBeh n s).directClientDropCount =
      s.directClientDropCount + (if s.directClient then 1 else 0) := by
  obtain ⟨m, rfl⟩ : ∃ m, n = m + 1 := ⟨n - 1, by omega⟩
  clear hn
  induction m generalizing s with
  | zero =>
    rw [iterateCleanup_succ]
    rw [show iterateCleanup noThrowBeh 0 (cleanup noThrowBeh s) = cleanup noThrowBeh s from rfl]
    rw [cleanup_ok_eq noThrowBeh s (Or.inl rfl) (Or.inl rfl)]
    simp
  | succ m ih =>
    have h := ih (cleanup noThrowBeh s)
    rw [iterateCleanup_succ]
    rw [cleanup_ok_eq noThrowBeh s (Or.inl rfl) (Or.inl rfl)] at h ⊢
    simpa using h

/-- Once a handle is null, any later `cleanup` invocation, under any close
behaviour, neither reopens it nor closes it again. -/
theorem cleanup_handle_noop (beh : CloseBehavior) (s : SupState) :
    (s.rl = false → (cleanup beh s).rl = false ∧
      (cleanup beh s).rlCloseCount = s.rlCloseCount) ∧
    (s.db = false → (cleanup beh s).db = false ∧
      (cleanup beh s).dbCloseCount = s.dbCloseCount) ∧
    (s.cache = false → (cleanup beh s).cache = false ∧
      (cleanup beh s).cacheDropCount = s.cacheDropCount) ∧
    (s.directClient = false → (cleanup beh s).directClient = false ∧
      (cleanup beh s).directClientDropCount = s.directClientDropCount) := by
  rcases s with ⟨rl, db, dba, ca, dc, sh, c1, c2, c3, c4, c5, gh, mc, ic, tc, el, wl, pr⟩
  rcases beh with ⟨b1, b2⟩
  cases rl <;> cases db <;> cases dba <;> cases ca <;> cases dc <;> cases b1 <;> cases b2 <;>
    simp [cleanup, cleanupTry, closeRl, closeDb, dropDbAdapter, dropCache,
      dropDirectClient, gcHintStep, clearModuleCache, clearIntervals, clearTimeouts]

/-- C1: cleanup() is idempotent: for every sequence of N invocations of
cleanup(), each owned handle (console input handle, storage handle, cache
handle, direct-client handle) is closed exactly once, and after the first
successful null-out of a handle, every later invocation is a no-op for
that handle. (Invocations are serialised by the single-threaded event
loop, so the sequence of N invocations is modelled by `iterateCleanup`;
the per-handle no-op part holds under arbitrary close behaviour.) -/
theorem c1_cleanup_idempotent (beh : CloseBehavior) (s : SupState) (n : Nat)
    (hn : 1 ≤ n) :
    ((iterateCleanup noThrowBeh n s).rl = false ∧
     (iterateCleanup noThrowBeh n s).db = false ∧
     (iterateCleanup noThrowBeh n s).cache = false ∧
     (iterateCleanup noThrowBeh n s).directClient = false ∧
     (iterateCleanup noThrowBeh n s).rlCloseCount =
       s.rlCloseCount + (if s.rl then 1 else 0) ∧
     (iterateCleanup noThrowBeh n s).dbCloseCount =
       s.dbCloseCount + (if s.db then 1 else 0) ∧
     (iterateCleanup noThrowBeh n s).cacheDropCount =
       s.cacheDropCount + (if s.cache then 1 else 0) ∧
     (iterateCleanup noThrowBeh n s).directClientDropCount =
       s.directClientDropCount + (if s.directClient then 1 else 0)) ∧
    ((s.rl = false → (cleanup beh s).rl = false ∧
       (cleanup beh s).rlCloseCount = s.rlCloseCount) ∧
     (s.db = false → (cleanup beh s).db = false ∧
       (cleanup beh s).dbCloseCount = s.dbCloseCount) ∧
     (s.cache = false → (cleanup beh s).cache = false ∧
       (cleanup beh s).cacheDropCount = s.cacheDropCount) ∧
     (s.directClient = false → (cleanup beh s).directClient = false ∧
       (cleanup beh s).directClientDropCount = s.directClientDropCount)) :=
  ⟨iterateCleanup_noThrow_spec n hn s, cleanup_handle_noop beh s⟩

/-- Witness for C1 at a concrete input: two invocations starting from an
already-torn-down state close nothing further. -/
theorem c1_cleanup_idempotent_witness :
    (iterateCleanup noThrowBeh 2 sClosed).rl = false ∧
    (cleanup rlThrowBeh sClosed).rlCloseCount = 1 ∧
    (cleanup rlThrowBeh sClosed).dbCloseCount = 1 ∧
    (cleanup rlThrowBeh sClosed).cacheDropCount = 1 ∧
    (cleanup rlThrowBeh sClosed).directClientDropCount = 1 := by
  have h := c1_cleanup_idempotent rlThrowBeh sClosed 2 (by omega)
  exact ⟨h.1.1, by simpa using (h.2.1 rfl).2, by simpa using (h.2.2.1 rfl).2,
    by simpa using (h.2.2.2.1 rfl).2, by simpa using (h.2.2.2.2 rfl).2⟩

/-- C3 counterexample: with every handle open, a throw while closing the
console input handle is caught by the single surrounding guard, but the
storage handle stays open and unclosed, the cache and direct-client
references are not dropped, and neither the GC hint nor the timer and
module-cache clearing steps run — the steps are not independently
guarded. -/
theorem c3_counterexample :
    (cleanup rlThrowBeh sOpen).errorsLogged = 1 ∧
    (cleanup rlThrowBeh sOpen).db = true ∧
    (cleanup rlThrowBeh sOpen).dbCloseCount = 0 ∧
    (cleanup rlThrowBeh sOpen).cacheDropCount = 0 ∧
    (cleanup rlThrowBeh sOpen).directClientDropCount = 0 ∧
    (cleanup rlThrowBeh sOpen).gcHints = 0 ∧
    (cleanup rlThrowBeh sOpen).moduleCacheCleared = false ∧
    (cleanup rlThrowBeh sOpen).intervalsCleared = false ∧
    (cleanup rlThrowBeh sOpen).timeoutsCleared = false := by decide

/-- C3 (amended): the teardown steps of cleanup() share one guard: a
failure (thrown exception) in any step is logged and is not propagated to
the caller, but it skips the remaining steps of that invocation; a throw
while closing the console input handle leaves every later step undone, and
a throw while closing the storage handle leaves every step after it
undone. -/
theorem c3_cleanup_single_guard (beh : CloseBehavior) (s : SupState) :
    (s.rl = true → beh.rlCloseThrows = true →
      cleanup beh s =
        { s with isShuttingDown := true, errorsLogged := s.errorsLogged + 1 }) ∧
    ((beh.rlCloseThrows = false ∨ s.rl = false) → s.db = true →
      beh.dbCloseThrows = true →
      cleanup beh s =
        { s with
          isShuttingDown := true, rl := false,
          rlCloseCount := s.rlCloseCount + (if s.rl then 1 else 0),
          errorsLogged := s.errorsLogged + 1 }) :=
  ⟨fun h1 h2 => cleanup_rlThrow_eq beh s h1 h2,
   fun h1 h2 h3 => cleanup_dbThrow_eq beh s h1 h2 h3⟩

/-- Witness for C3 (amended) at concrete inputs: both throw scenarios on a
fully open state. -/
theorem c3_cleanup_single_guard_witness :
    cleanup rlThrowBeh sOpen =
      { sOpen with isShuttingDown := true, errorsLogged := 1 } ∧
    cleanup dbThrowBeh sOpen =
      { sOpen with
        isShuttingDown := true, rl := false, rlCloseCount := 1,
        errorsLogged := 1 } := by
  constructor
  · exact (c3_cleanup_single_guard rlThrowBeh sOpen).1 rfl rfl
  · exact (c3_cleanup_single_guard dbThrowBeh sOpen).2 (Or.inl rfl) rfl rfl

/-- C2 counterexample: at a heap sample of exactly the Critical threshold
(375MB = 393216000 bytes), checkMemoryUsage does not tear down and does
not exit — the comparison in the code is strict — and instead takes the
Warning branch (warning logged, GC hint). This refutes the claim for the
"at or above" boundary case. -/
theorem c2_counterexample :
    375 * 1024 * 1024 = CRITICAL_MEMORY_THRESHOLD ∧
    (checkMemoryUsage noThrowBeh sOpen (375 * 1024 * 1024)).2 = none ∧
    (checkMemoryUsage noThrowBeh sOpen (375 * 1024 * 1024)).1.isShuttingDown = false ∧
    (checkMemoryUsage noThrowBeh sOpen (375 * 1024 * 1024)).1.rl = true ∧
    (checkMemoryUsage noThrowBeh sOpen (375 * 1024 * 1024)).1.warningsLogged = 1 ∧
    (checkMemoryUsage noThrowBeh sOpen (375 * 1024 * 1024)).1.gcHints = 1 := by
  decide

/-- C2 (amended): for every memory sample, if the sampled heap usage is
strictly above the Critical threshold (375MB) then checkMemoryUsage
invokes the full teardown (cleanup) and terminates the process with a
non-zero status, and if the sampled heap usage is strictly below the
Warning threshold (350MB) then checkMemoryUsage triggers neither a GC
hint nor teardown. -/
theorem c2_checkMemoryUsage_thresholds (beh : CloseBehavior) (s : SupState)
    (heapUsed : Nat) :
    (heapUsed > CRITICAL_MEMORY_THRESHOLD →
      checkMemoryUsage beh s heapUsed =
        (cleanup beh { s with errorsLogged := s.errorsLogged + 1 }, some 1) ∧
      (checkMemoryUsage beh s heapUsed).1.isShuttingDown = true) ∧
    (heapUsed < MEMORY_THRESHOLD →
      checkMemoryUsage beh s heapUsed = (s, none)) := by
  constructor
  · intro h
    have hc : checkMemoryUsage beh s heapUsed =
        (cleanup beh { s with errorsLogged := s.errorsLogged + 1 }, some 1) := by
      simp [checkMemoryUsage, h]
    exact ⟨hc, by rw [hc]; exact cleanup_shuts _ _⟩
  · intro h
    have h1 : ¬ heapUsed > CRITICAL_MEMORY_THRESHOLD := by
      simp only [MEMORY_THRESHOLD, CRITICAL_MEMORY_THRESHOLD] at h ⊢
      omega
    have h2 : ¬ heapUsed > MEMORY_THRESHOLD := by omega
    simp [checkMemoryUsage, h1, h2]

/-- Witness for C2 (amended) at concrete inputs: one byte above the
Critical threshold tears down and exits 1; a zero sample does nothing. -/
theorem c2_checkMemoryUsage_thresholds_witness :
    (checkMemoryUsage noThrowBeh sOpen 393216001).2 = some 1 ∧
    (checkMemoryUsage noThrowBeh sOpen 393216001).1.isShuttingDown = true ∧
    checkMemoryUsage noThrowBeh sOpen 0 = (sOpen, none) := by
  have ha := (c2_checkMemoryUsage_thresholds noThrowBeh sOpen 393216001).1 (by decide)
  have hb := (c2_checkMemoryUsage_thresholds noThrowBeh sOpen 0).2 (by decide)
  exact ⟨by rw [ha.1], ha.2, hb⟩

/-- C4 counterexample: the input witness is a single leading space before
"exit". Its trimmed, lowercased form is "exit", so the claim requires
teardown and exit status 0; but the code compares the untrimmed lowercase
input, so the loop instead performs a round-trip and re-arms, and no
teardown happens. -/
theorem c4_counterexample :
    jsToLower (jsTrim " exit") = "exit" ∧
    (chatCallback noThrowBeh sOpen 0 respOk "Agent" " exit").2 =
      ChatOutcome.rearmed ∧
    (chatCallback noThrowBeh sOpen 0 respOk "Agent" " exit").1.isShuttingDown =
      false ∧
    (chatCallback noThrowBeh sOpen 0 respOk "Agent" " exit").1.rl = true := by
  decide

/-- C4 (amended): for every console input whose lowercased form equals
"exit" exactly — any letter case, but with no surrounding whitespace — the
console loop performs teardown (cleanup) and then terminates the process
with exit status 0. -/
theorem c4_exit_command (beh : CloseBehavior) (s : SupState) (heapUsed : Nat)
    (resp : HttpResponse) (agentId input : String)
    (h : jsToLower input = "exit") :
    chatCallback beh s heapUsed resp agentId input =
      (cleanup beh s, ChatOutcome.exited 0) ∧
    (chatCallback beh s heapUsed resp agentId input).1.isShuttingDown = true := by
  have hc : chatCallback beh s heapUsed resp agentId input =
      (cleanup beh s, ChatOutcome.exited 0) := by
    simp [chatCallback, h]
  exact ⟨hc, by rw [hc]; exact cleanup_shuts _ _⟩

/-- Witness for C4 (amended) at a concrete input: the upper-case command
"EXIT" shuts the process down with status 0 after teardown. -/
theorem c4_exit_command_witness :
    chatCallback noThrowBeh sOpen 0 respOk "Agent" "EXIT" =
      (cleanup noThrowBeh sOpen, ChatOutcome.exited 0) :=
  (c4_exit_command noThrowBeh sOpen 0 respOk "Agent" "EXIT" (by decide)).1

/-- C7: for every console round-trip whose HTTP response has a non-success
status, the loop treats it as a completed error: the error is logged (once
in handleUserInput, once in the chat callback), the process does not exit,
and the loop re-arms for a subsequent prompt, provided shutdown is not in
progress (and the heap sample did not exceed the Critical threshold, since
otherwise the round-trip itself is pre-empted). -/
theorem c7_http_error_rearms (beh : CloseBehavior) (s : SupState)
    (heapUsed : Nat) (resp : HttpResponse) (agentId input : String)
    (h1 : resp.ok = false) (h2 : jsToLower input ≠ "exit")
    (h3 : heapUsed ≤ CRITICAL_MEMORY_THRESHOLD)
    (h4 : s.isShuttingDown = false) :
    (chatCallback beh s heapUsed resp agentId input).2 = ChatOutcome.rearmed ∧
    (chatCallback beh s heapUsed resp agentId input).1.errorsLogged =
      s.errorsLogged + 2 ∧
    (chatCallback beh s heapUsed resp agentId input).1.isShuttingDown = false := by
  have hnc : ¬ heapUsed > CRITICAL_MEMORY_THRESHOLD := by omega
  by_cases hw : heapUsed > MEMORY_THRESHOLD <;>
    simp [chatCallback, checkMemoryUsage, handleUserInput, h1, h2, h4, hnc, hw]

/-- Witness for C7 at a concrete input: a 500 response to "hello" logs two
errors and re-arms the loop. -/
theorem c7_http_error_rearms_witness :
    (chatCallback noThrowBeh sOpen 0 resp500 "Agent" "hello").2 =
      ChatOutcome.rearmed ∧
    (chatCallback noThrowBeh sOpen 0 resp500 "Agent" "hello").1.errorsLogged = 2 ∧
    (chatCallback noThrowBeh sOpen 0 resp500 "Agent" "hello").1.isShuttingDown =
      false := by
  have h := c7_http_error_rearms noThrowBeh sOpen 0 resp500 "Agent" "hello"
    (by decide) (by decide) (by decide) (by decide)
  exact ⟨h.1, by simpa using h.2.1, h.2.2⟩

/-- C5: for every list of two or more configured characters, agent
bring-up is strictly sequential in list order: in the event trace of the
awaited bring-up loop, character k's registration with the Direct Client
and the fixed 2000ms inter-instance delay occur at positions strictly
before the construction of character k+1, and no two bring-ups overlap
(every event of an earlier character precedes every event of a later
one). -/
theorem c5_sequential_bringup (n k i j : Nat) (e1 e2 : BringUpEvent)
    (hk : k + 1 < n) :
    (bringUpTrace n)[12 * k + 8]? = some (BringUpEvent.registered k) ∧
    (bringUpTrace n)[12 * k + 10]? = some (BringUpEvent.delayed k 2000) ∧
    (bringUpTrace n)[12 * (k + 1) + 5]? =
      some (BringUpEvent.constructStart (k + 1)) ∧
    12 * k + 8 < 12 * k + 10 ∧ 12 * k + 10 < 12 * (k + 1) + 5 ∧
    ((bringUpTrace n)[i]? = some e1 → (bringUpTrace n)[j]? = some e2 →
      eventOwner e1 < eventOwner e2 → i < j) := by
  refine ⟨?_, ?_, ?_, by omega, by omega, ?_⟩
  · rw [bringUpTrace_getElem n k 8 (by omega) (by omega)]; rfl
  · rw [bringUpTrace_getElem n k 10 (by omega) (by omega)]; rfl
  · rw [bringUpTrace_getElem n (k + 1) 5 (by omega) (by omega)]; rfl
  · intro h1 h2 hlt
    have o1 := bringUpTrace_owner n i e1 h1
    have o2 := bringUpTrace_owner n j e2 h2
    rw [o1, o2] at hlt
    by_contra hc
    push_neg at hc
    exact absurd (Nat.div_le_div_right (c := 12) hc) (by omega)

/-- Witness for C5 at a concrete input: two characters; character 0's
registration sits at position 8 of the trace, and an event of character 0
precedes an event of character 1. -/
theorem c5_sequential_bringup_witness :
    (bringUpTrace 2)[8]? = some (BringUpEvent.registered 0) ∧ (0 : Nat) < 13 := by
  have h := c5_sequential_bringup 2 0 0 13 (BringUpEvent.memCheck 0)
    (BringUpEvent.defaultsResolved 1) (by omega)
  exact ⟨by simpa using h.1, h.2.2.2.2.2 (by decide) (by decide) (by decide)⟩

/-- Failure behaviour in which only the awaited `db.init()` throws. -/
def failDbInit : StepFailures :=
  { dbInitFails := true, initializeFails := false, clientsFail := false,
    registerFails := false }

/-- Failure behaviour in which only `initializeClients` throws. -/
def failClients : StepFailures :=
  { dbInitFails := false, initializeFails := false, clientsFail := true,
    registerFails := false }

/-- A character with no explicit id, username or settings. -/
def normanChar : Character :=
  { name := "Norinder", id := none, username := none,
    modelProvider := ModelProviderName.OPENAI, clients := [], settings := none }

/-- C6: for every character, an exception raised during storage opening,
runtime construction/initialization, or registration with the Direct
Client is logged together with that character's name and re-raised to the
caller, so that startAgents tears down and terminates the process with a
non-zero status; whereas a failure while starting optional platform or
plugin clients is caught, logged only as a warning, and bring-up of that
agent completes successfully. -/
theorem c6_bringup_error_policy (st : ProcessSettings) (c : Character)
    (f : StepFailures) (beh : CloseBehavior) (s : SupState) :
    ((f.dbInitFails = true ∨ f.initializeFails = true ∨ f.registerFails = true) →
      startAgentRun st c f =
        Except.error (startAgentErrorLog (resolveDefaults c).name) ∧
      (startAgentsOnResult beh s (startAgentRun st c f)).2 = some 1 ∧
      (startAgentsOnResult beh s (startAgentRun st c f)).1.isShuttingDown = true) ∧
    (f.dbInitFails = false → f.initializeFails = false → f.registerFails = false →
      startAgentRun st c f =
        Except.ok (createAgent (resolveDefaults c)
          (getTokenForProvider (resolveDefaults c).modelProvider
            (resolveDefaults c) st), f.clientsFail) ∧
      (startAgentsOnResult beh s (startAgentRun st c f)).2 = none) := by
  rcases f with ⟨f1, f2, f3, f4⟩
  cases f1 <;> cases f2 <;> cases f4 <;>
    simp_all [startAgentRun, startAgentsOnResult, cleanup_shuts]

/-- Witness for C6 at concrete inputs: a storage-open failure exits with
status 1; a client-start failure alone yields a successful bring-up with
the warning recorded. -/
theorem c6_bringup_error_policy_witness :
    (startAgentsOnResult noThrowBeh sOpen
      (startAgentRun noSettings normanChar failDbInit)).2 = some 1 ∧
    startAgentRun noSettings normanChar failClients =
      Except.ok (createAgent (resolveDefaults normanChar)
        (getTokenForProvider (resolveDefaults normanChar).modelProvider
          (resolveDefaults normanChar) noSettings), true) := by
  have h1 := (c6_bringup_error_policy noSettings normanChar failDbInit
    noThrowBeh sOpen).1 (Or.inl rfl)
  have h2 := (c6_bringup_error_policy noSettings normanChar failClients
    noThrowBeh sOpen).2 rfl rfl rfl
  exact ⟨h1.2.1, h2.1⟩

/-- A secret bag holding only a TOGETHER key. -/
def llamaSecrets : Secrets :=
  { noSecrets with TOGETHER_API_KEY := some "character-together-key" }

/-- A LLAMACLOUD character whose secret bag holds an acceptable key for
its provider (TOGETHER_API_KEY) but not the first key of the chain. -/
def llamaChar : Character :=
  { name := "L", id := none, username := none,
    modelProvider := ModelProviderName.LLAMACLOUD, clients := [],
    settings := some { secrets := some llamaSecrets } }

/-- Process settings holding a LLAMACLOUD key. -/
def llamaSettings : ProcessSettings :=
  { noSettings with LLAMACLOUD_API_KEY := some "env-llamacloud-key" }

/-- C8 counterexample: for the LLAMACLOUD provider the chain interleaves
character and process-wide lookups per key name, so a character whose
secret bag contains an acceptable key (TOGETHER_API_KEY) still receives
the process-wide token for an earlier key name (LLAMACLOUD_API_KEY) — the
returned token does not come from the character's bag. -/
theorem c8_counterexample :
    charSecret llamaChar (fun s => s.TOGETHER_API_KEY) =
      some "character-together-key" ∧
    getTokenForProvider ModelProviderName.LLAMACLOUD llamaChar llamaSettings =
      some "env-llamacloud-key" ∧
    some "env-llamacloud-key" ≠ (some "character-together-key" : Option String) := by
  decide

/-- C8 (amended): for every supported model provider and every character,
getTokenForProvider resolves the provider token by evaluating the
provider's declared fallback chain of (source, key) lookups in the
documented order with first (truthy) match winning; for the single-key
providers and for ANTHROPIC the character's secret bag is consulted before
process-wide settings, but for LLAMACLOUD the chain interleaves character
and settings lookups per key name, so a character-bag key can lose to a
process-wide setting for an earlier key name. -/
theorem c8_token_chain (p : ModelProviderName) (c : Character)
    (st : ProcessSettings) :
    getTokenForProvider p c st = resolveChain (tokenChain p c st) := by
  cases p <;> rfl

/-- The defaults-resolution step does not change the character's declared
model provider. -/
theorem resolveDefaults_modelProvider (c : Character) :
    (resolveDefaults c).modelProvider = c.modelProvider := by
  rcases c with ⟨name, id, username, mp, cl, stg⟩
  cases id <;> cases username <;> rfl

/-- A provider outside the eight handled switch cases resolves to no token,
whatever the character and the process settings hold. -/
theorem getTokenForProvider_unhandled (p : ModelProviderName)
    (hp : handledProvider p = false) (c : Character) (st : ProcessSettings) :
    getTokenForProvider p c st = none := by
  cases p <;> simp_all [handledProvider, getTokenForProvider]

/-- C10: for every model provider value other than the eight handled cases
(OPENAI, LLAMACLOUD, ANTHROPIC, REDPILL, OPENROUTER, GROK, HEURIST, GROQ),
getTokenForProvider returns no token (undefined), and agent bring-up then
constructs the Agent Runtime with that undefined token rather than failing
at token resolution. -/
theorem c10_unhandled_provider_token (c : Character) (st : ProcessSettings)
    (h : handledProvider c.modelProvider = false) :
    getTokenForProvider c.modelProvider c st = none ∧
    startAgentRun st c noFailures =
      Except.ok (createAgent (resolveDefaults c) none, false) := by
  constructor
  · exact getTokenForProvider_unhandled c.modelProvider h c st
  · have hm := resolveDefaults_modelProvider c
    have ht := getTokenForProvider_unhandled (resolveDefaults c).modelProvider
      (by rw [hm]; exact h) (resolveDefaults c) st
    simp [startAgentRun, noFailures, ht]

/-- A character declaring the (unhandled) OLLAMA provider. -/
def ollamaChar : Character :=
  { name := "O", id := none, username := none,
    modelProvider := ModelProviderName.OLLAMA, clients := [], settings := none }

/-- Witness for C10 at a concrete input: an OLLAMA character gets no token
and its runtime is constructed with `none`. -/
theorem c10_unhandled_provider_token_witness :
    getTokenForProvider ollamaChar.modelProvider ollamaChar noSettings = none ∧
    startAgentRun noSettings ollamaChar noFailures =
      Except.ok (createAgent (resolveDefaults ollamaChar) none, false) :=
  c10_unhandled_provider_token ollamaChar noSettings (by decide)

/-- C9 counterexample: with the ShutdownFlag already set, a critical heap
sample still makes checkMemoryUsage act in full — it logs the error, runs
the teardown (bumping the GC-hint counter through cleanup) and exits with
status 1 — so the Memory Watchdog does not consult the flag before
acting. -/
theorem c9_counterexample :
    sClosed.isShuttingDown = true ∧
    (checkMemoryUsage noThrowBeh sClosed 393216001).2 = some 1 ∧
    (checkMemoryUsage noThrowBeh sClosed 393216001).1.errorsLogged = 1 ∧
    (checkMemoryUsage noThrowBeh sClosed 393216001).1.gcHints = 2 := by decide

/-- C9 (amended): the ShutdownFlag is a single process-wide boolean that is
monotonic (set by cleanup, preserved by every modelled operation, never
reset) and is consulted by the Console Loop before re-arming (once set,
the loop neither issues another prompt nor re-arms); the Memory Watchdog,
however, does not consult it: checkMemoryUsage acts the same whether or
not the flag is set. -/
theorem c9_shutdown_flag (beh : CloseBehavior) (s : SupState) (heapUsed : Nat)
    (resp : HttpResponse) (agentId input : String)
    (r : Except String (RuntimeConfig × Bool)) :
    (cleanup beh s).isShuttingDown = true ∧
    (s.isShuttingDown = true →
      (checkMemoryUsage beh s heapUsed).1.isShuttingDown = true ∧
      (chatCallback beh s heapUsed resp agentId input).1.isShuttingDown = true ∧
      (startAgentsOnResult beh s r).1.isShuttingDown = true ∧
      chatEntry s = false ∧
      (chatCallback beh s heapUsed resp agentId input).2 ≠ ChatOutcome.rearmed) ∧
    (checkMemoryUsage beh { s with isShuttingDown := true } heapUsed).2 =
      (checkMemoryUsage beh { s with isShuttingDown := false } heapUsed).2 := by
  refine ⟨cleanup_shuts beh s, ?_, ?_⟩
  · intro h
    have hmem : (checkMemoryUsage beh s heapUsed).1.isShuttingDown = true := by
      by_cases h1 : heapUsed > CRITICAL_MEMORY_THRESHOLD
      · simp [checkMemoryUsage, h1, cleanup_shuts]
      · by_cases h2 : heapUsed > MEMORY_THRESHOLD <;>
          simp [checkMemoryUsage, h1, h2, h]
    have hchat : (chatCallback beh s heapUsed resp agentId input).1.isShuttingDown
        = true ∧
        (chatCallback beh s heapUsed resp agentId input).2 ≠ ChatOutcome.rearmed := by
      by_cases he : jsToLower input = "exit"
      · simp [chatCallback, he, cleanup_shuts]
      · by_cases h1 : heapUsed > CRITICAL_MEMORY_THRESHOLD
        · simp [chatCallback, checkMemoryUsage, he, h1, cleanup_shuts]
        · by_cases h1x : heapUsed > MEMORY_THRESHOLD <;>
            cases hok : resp.ok <;>
            simp [chatCallback, checkMemoryUsage, handleUserInput, he, h1, h1x,
              hok, h]
    have hres : (startAgentsOnResult beh s r).1.isShuttingDown = true := by
      cases r <;> simp [startAgentsOnResult, cleanup_shuts, h]
    exact ⟨hmem, hchat.1, hres, by simp [chatEntry, h], hchat.2⟩
  · by_cases h1 : heapUsed > CRITICAL_MEMORY_THRESHOLD
    · simp [checkMemoryUsage, h1]
    · by_cases h2 : heapUsed > MEMORY_THRESHOLD <;> simp [checkMemoryUsage, h1, h2]

/-- Witness for C9 (amended) at a concrete input: with the flag set, the
console loop neither prompts nor re-arms, the modelled operations keep the
flag set, and the watchdog is unaffected by the flag. -/
theorem c9_shutdown_flag_witness :
    (cleanup noThrowBeh sClosed).isShuttingDown = true ∧
    (checkMemoryUsage noThrowBeh sClosed 0).1.isShuttingDown = true ∧
    chatEntry sClosed = false ∧
    (chatCallback noThrowBeh sClosed 0 respOk "Agent" "hello").2 ≠
      ChatOutcome.rearmed := by
  have h := c9_shutdown_flag noThrowBeh sClosed 0 respOk "Agent" "hello"
    (Except.error "boom")
  exact ⟨h.1, (h.2.1 rfl).1, (h.2.1 rfl).2.2.2.1, (h.2.1 rfl).2.2.2.2⟩

end ElizaStarter


